import Mathlib

/-!
# Verification of the MujocoManip environment/object layer

Shallow embedding of `MujocoManip/environments/base.py` and
`MujocoManip/models/mujoco_object.py` (pairlab/robosuite, early tree).

Numeric values computed by the Python code are modelled as exact
rationals (`ℚ`); the `np.linalg.norm` geometry of `BoxObject` is
modelled over `ℝ`.  Python exceptions are modelled with `Except PyErr`.
Randomness (`np.random.uniform`, `np.random.choice`) is modelled by an
explicit stream of draws passed in as an argument.
-/

/-- Python exceptions raised by the embedded code. -/
inductive PyErr where
  | xmlError (msg : String)
  | simulationError (msg : String)
  | valueError (msg : String)
  | attributeError (msg : String)
  | unboundLocalError (msg : String)
  | assertionError (msg : String)
  | indexError (msg : String)
  deriving Repr, DecidableEq

/-- Lifecycle calls made by `MujocoEnv`, recorded in order of occurrence.
`closeViewer` is `self.viewer.close()`, `loadModel` is `self._load_model()`,
`buildSim` is `self.model.get_model(...)` followed by `MjSim(...)`,
`initTime` is `self.initialize_time(...)`, `viewerInit` is
`MujocoPyRenderer(self.sim)`, `captureState` is `self.sim.get_state()`,
`getReference` is `self._get_reference()`. -/
inductive Event where
  | closeViewer
  | loadModel
  | buildSim
  | initTime
  | viewerInit
  | captureState
  | getReference
  deriving Repr, DecidableEq

/-- The mutable attributes of a `MujocoEnv` object, together with an
abstract view of the wrapped `MjSim`: `simStepCount` counts the calls to
`sim.step()` made since the simulation was built (the only way this layer
mutates the physics state), `ctrl` is the last action written to
`sim.data.ctrl`, `sim_timestep` is `sim.model.opt.timestep`, and `trace`
records the lifecycle calls in order. -/
structure EnvState where
  display : Bool
  control_freq : ℚ
  horizon : ℕ
  ignore_done : Bool
  viewer : Bool
  cur_time : ℚ
  model_timestep : ℚ
  control_timestep : ℚ
  sim_timestep : ℚ
  t : ℕ
  done : Bool
  ctrl : Option (List ℚ)
  simStepCount : ℕ
  sim_state_initial : ℕ
  trace : List Event
  deriving Repr, DecidableEq

/-- Behaviour supplied from outside `MujocoEnv`: the timestep of the model
produced by the subclass `_load_model`, and the subclass
`_check_terminated` predicate called by `_post_action` (the base class does
not define `_check_terminated`; it is abstracted as a total boolean
function of the environment state). -/
structure EnvConfig where
  modelTimestep : ℚ
  checkTerminated : EnvState → Bool

namespace MujocoEnv

/-- `MujocoEnv.initialize_time(control_freq)`:
sets `cur_time = 0` and `model_timestep = sim.model.opt.timestep`, raises
`XMLError` on a non-positive timestep, stores `control_freq`, raises
`SimulationError` on a non-positive control frequency, and otherwise sets
`control_timestep = 1 / control_freq`. -/
def initialize_time (e : EnvState) (control_freq : ℚ) : Except PyErr EnvState :=
  let e1 : EnvState :=
    { e with cur_time := 0, model_timestep := e.sim_timestep,
             trace := e.trace ++ [Event.initTime] }
  if e1.model_timestep ≤ 0 then
    Except.error (PyErr.xmlError "xml model defined non-positive time step")
  else
    let e2 : EnvState := { e1 with control_freq := control_freq }
    if control_freq ≤ 0 then
      Except.error (PyErr.simulationError "control frequency is invalid")
    else
      Except.ok { e2 with control_timestep := 1 / control_freq }

/-- `MujocoEnv.close()`: destroys the viewer when one is active, otherwise
does nothing. -/
def close (e : EnvState) : EnvState :=
  if e.viewer then
    { e with viewer := false, trace := e.trace ++ [Event.closeViewer] }
  else
    e

/-- `MujocoEnv._reset_internal()`: `_load_model`, `get_model` + `MjSim`
(which yields a fresh simulation whose timestep is the loaded model
timestep and whose step count is 0), `initialize_time`, viewer creation
when `display`, `sim.get_state()` captured into `sim_state_initial`,
`_get_reference`, then `cur_time = 0`, `t = 0`, `done = False`. -/
def reset_internal (cfg : EnvConfig) (e : EnvState) : Except PyErr EnvState :=
  let e1 : EnvState := { e with trace := e.trace ++ [Event.loadModel] }
  let e2 : EnvState :=
    { e1 with sim_timestep := cfg.modelTimestep, simStepCount := 0,
              trace := e1.trace ++ [Event.buildSim] }
  match initialize_time e2 e2.control_freq with
  | Except.error err => Except.error err
  | Except.ok e3 =>
    let e4 : EnvState :=
      if e3.display then
        { e3 with viewer := true, trace := e3.trace ++ [Event.viewerInit] }
      else e3
    let e5 : EnvState :=
      { e4 with sim_state_initial := e4.simStepCount,
                trace := e4.trace ++ [Event.captureState] }
    let e6 : EnvState := { e5 with trace := e5.trace ++ [Event.getReference] }
    Except.ok { e6 with cur_time := 0, t := 0, done := false }

/-- The physics loop of `MujocoEnv.step`:
`while self.cur_time < end_time: self.sim.step(); self.cur_time += self.model_timestep`.
Returns the final `cur_time` together with the total number of
`sim.step()` calls (`count` accumulates calls already made).  Termination
requires a positive physics timestep, which `initialize_time` guarantees. -/
def simLoop (δ : ℚ) (hδ : 0 < δ) (endt : ℚ) (cur : ℚ) (count : ℕ) : ℚ × ℕ :=
  if h : cur < endt then
    simLoop δ hδ endt (cur + δ) (count + 1)
  else
    (cur, count)
termination_by (Int.ceil ((endt - cur) / δ)).toNat
decreasing_by
  have hx : 0 < (endt - cur) / δ := div_pos (by linarith) hδ
  have h1 : 1 ≤ Int.ceil ((endt - cur) / δ) := Int.ceil_pos.mpr hx
  have hrw : (endt - (cur + δ)) / δ = (endt - cur) / δ - 1 := by
    field_simp
    ring
  have h2 : Int.ceil ((endt - (cur + δ)) / δ) = Int.ceil ((endt - cur) / δ) - 1 := by
    rw [hrw, Int.ceil_sub_one]
  simp only [h2]
  omega

/-- `MujocoEnv._get_observation()`: the base class returns an empty
`OrderedDict`, modelled as `Unit`. -/
def get_observation (_ : EnvState) : Unit := ()

/-- `MujocoEnv.reset()`: `close`, `_reset_internal`, then
`return self._get_observation()`. -/
def reset (cfg : EnvConfig) (e : EnvState) : Except PyErr (Unit × EnvState) :=
  let e1 := close e
  match reset_internal cfg e1 with
  | Except.error err => Except.error err
  | Except.ok e2 => Except.ok (get_observation e2, e2)

/-- `MujocoEnv.step(action)`: if not done, increments `t`, performs
`_pre_action` (writes the action into `sim.data.ctrl`), runs the physics
loop up to `end_time = cur_time + control_timestep`, then `_post_action`
(base-class reward 0; `done = (check_terminated or t >= horizon) and
(not ignore_done)`) and returns `(observation, reward, done, info)`.
If already done, raises
`ValueError` (executing action in terminated episode) without touching
any state.  The result pairs the Python return / exception with the
post-call state of the object. -/
def step (cfg : EnvConfig) (e : EnvState) (action : List ℚ)
    (hδ : 0 < e.model_timestep) :
    Except PyErr (Unit × ℚ × Bool) × EnvState :=
  if e.done = false then
    let e1 : EnvState := { e with t := e.t + 1 }
    let e2 : EnvState := { e1 with ctrl := some action }
    let endt : ℚ := e2.cur_time + e2.control_timestep
    let r := simLoop e2.model_timestep hδ endt e2.cur_time 0
    let e3 : EnvState :=
      { e2 with cur_time := r.1, simStepCount := e2.simStepCount + r.2 }
    let reward : ℚ := 0
    let done : Bool :=
      (cfg.checkTerminated e3 || decide (e3.horizon ≤ e3.t)) && !e3.ignore_done
    let e4 : EnvState := { e3 with done := done }
    (Except.ok (get_observation e4, reward, done), e4)
  else
    (Except.error (PyErr.valueError "executing action in terminated episode"), e)

theorem step_model_timestep (cfg : EnvConfig) (e : EnvState) (action : List ℚ)
    (hδ : 0 < e.model_timestep) :
    (step cfg e action hδ).2.model_timestep = e.model_timestep := by
  unfold step
  split <;> rfl

/-- `n` consecutive calls to `MujocoEnv.step` with the same action,
stopping (and propagating) at the first raised exception. -/
def stepN (cfg : EnvConfig) (action : List ℚ) :
    (n : ℕ) → (e : EnvState) → 0 < e.model_timestep → Except PyErr Unit × EnvState
  | 0, e, _ => (Except.ok (), e)
  | n + 1, e, h =>
    match h1 : step cfg e action h with
    | (Except.error err, e1) => (Except.error err, e1)
    | (Except.ok _, e1) =>
      stepN cfg action n e1 (by
        have := step_model_timestep cfg e action h
        rw [h1] at this
        rw [this]
        exact h)

/-- An `xml.etree.ElementTree.Element`: a tag, an attribute dictionary
(string keys are unique; modelled by an association list kept duplicate-free
by the operations below) and an ordered list of children. -/
theorem simLoop_closed (δ : ℚ) (hδ : 0 < δ) :
    ∀ (k : ℕ) (endt cur : ℚ) (count : ℕ),
      (Int.ceil ((endt - cur) / δ)).toNat = k →
      simLoop δ hδ endt cur count = (cur + k * δ, count + k) := by
  intro k
  induction k with
  | zero =>
    intro endt cur count hk
    have hle : Int.ceil ((endt - cur) / δ) ≤ 0 := by omega
    have hx : (endt - cur) / δ ≤ 0 := by
      by_contra hpos
      push_neg at hpos
      have := Int.ceil_pos.mpr hpos
      omega
    have hnlt : ¬ cur < endt := by
      intro hlt
      exact absurd (div_pos (by linarith) hδ) (not_lt.mpr hx)
    unfold simLoop
    rw [dif_neg hnlt]
    simp
  | succ k ih =>
    intro endt cur count hk
    have hcpos : 0 < Int.ceil ((endt - cur) / δ) := by omega
    have hx : 0 < (endt - cur) / δ := Int.ceil_pos.mp hcpos
    have hlt : cur < endt := by
      have := (div_pos_iff_of_pos_right hδ).mp hx
      linarith
    have hrw : (endt - (cur + δ)) / δ = (endt - cur) / δ - 1 := by
      field_simp
      ring
    have h2 : Int.ceil ((endt - (cur + δ)) / δ) = Int.ceil ((endt - cur) / δ) - 1 := by
      rw [hrw, Int.ceil_sub_one]
    have hk2 : (Int.ceil ((endt - (cur + δ)) / δ)).toNat = k := by omega
    unfold simLoop
    rw [dif_pos hlt, ih endt (cur + δ) (count + 1) hk2]
    refine Prod.ext ?_ ?_
    · push_cast
      ring
    · simp
      omega

end MujocoEnv

inductive Element where
  | elem (tag : String) (attrib : List (String × String)) (children : List Element)

def Element.tag : Element → String
  | Element.elem t _ _ => t

def Element.attrib : Element → List (String × String)
  | Element.elem _ a _ => a

def Element.children : Element → List Element
  | Element.elem _ _ c => c

/-- Python `d[k]` lookup on a string-keyed dict, as an `Option`. -/
def dictGet (d : List (String × String)) (k : String) : Option String :=
  (d.find? (fun kv => kv.1 == k)).map (fun kv => kv.2)

/-- Python `d[k] = v`: replaces the value when the key is present,
otherwise appends the new binding. -/
def dictSet (d : List (String × String)) (k : String) (v : String) :
    List (String × String) :=
  if (d.find? (fun kv => kv.1 == k)).isSome then
    d.map (fun kv => if kv.1 == k then (k, v) else kv)
  else
    d ++ [(k, v)]

/-- Python `d.pop(k)`: removes the binding, raising `KeyError` (modelled as
an error) when the key is absent. -/
def dictPop (d : List (String × String)) (k : String) :
    Except PyErr (List (String × String)) :=
  if (d.find? (fun kv => kv.1 == k)).isSome then
    Except.ok (d.filter (fun kv => !(kv.1 == k)))
  else
    Except.error (PyErr.valueError "KeyError")

/-- `self.worldbody.find("./body[@name=...]")`: the first direct child that
is a `body` element carrying the given `name` attribute. -/
def findBodyNamed (wb : Element) (nm : String) : Option Element :=
  wb.children.find? (fun c => c.tag == "body" && dictGet c.attrib "name" == some nm)

/-- `MujocoObject.get_site_attrib_template()`. -/
def site_attrib_template : List (String × String) :=
  [("pos", "0 0 0"), ("size", "0.002 0.002 0.002"),
   ("rgba", "1 0 0 1"), ("type", "sphere")]

/-- `ET.Element("site", attrib=template)` with the template of
`get_site_attrib_template`, plus `template["name"] = name` when a name was
given. -/
def siteElement (name : Option String) : Element :=
  Element.elem "site"
    (match name with
     | some n => dictSet site_attrib_template "name" n
     | none => site_attrib_template) []

namespace MujocoXMLObject

/-- `MujocoXMLObject.get_collision(name, site)`: deep-copies the stored
`<body name="collision">` subtree, pops its `name` attribute, re-adds the
given name when one is passed, optionally appends a site element, and
returns the copy.  The second component of the result is the worldbody
of the object after the call: because the source works on `copy.deepcopy` of
the found subtree, the stored worldbody is returned unchanged. -/
def get_collision (worldbody : Element) (name : Option String) (site : Bool) :
    Except PyErr Element × Element :=
  match findBodyNamed worldbody "collision" with
  | none =>
    (Except.error (PyErr.attributeError "NoneType object has no attribute attrib"),
     worldbody)
  | some found =>
    match dictPop found.attrib "name" with
    | Except.error err => (Except.error err, worldbody)
    | Except.ok attrib1 =>
      let attrib2 :=
        match name with
        | some n => dictSet attrib1 "name" n
        | none => attrib1
      let children2 :=
        if site then found.children ++ [siteElement name] else found.children
      (Except.ok (Element.elem found.tag attrib2 children2), worldbody)

/-- `MujocoXMLObject.get_visual(name, site)`: deep-copies the stored
`<body name="visual">` subtree and pops its `name` attribute; then, when a
name is passed, the source executes `visual.attrib.set("name", name)` —
but a Python dict has no method `set`, so an `AttributeError` is raised.
The second component is the worldbody after the call (unchanged, as the
code works on a deep copy). -/
def get_visual (worldbody : Element) (name : Option String) (site : Bool) :
    Except PyErr Element × Element :=
  match findBodyNamed worldbody "visual" with
  | none =>
    (Except.error (PyErr.attributeError "NoneType object has no attribute attrib"),
     worldbody)
  | some found =>
    match dictPop found.attrib "name" with
    | Except.error err => (Except.error err, worldbody)
    | Except.ok attrib1 =>
      match name with
      | some _ =>
        (Except.error (PyErr.attributeError "dict object has no attribute set"),
         worldbody)
      | none =>
        let children2 :=
          if site then found.children ++ [siteElement name] else found.children
        (Except.ok (Element.elem found.tag attrib1 children2), worldbody)

end MujocoXMLObject

/-- The `rgba` argument of `MujocoGeneratedObject.__init__`: `None`, the
string `"random"`, or an explicit array. -/
inductive RgbaArg where
  | noneArg
  | random
  | given (l : List ℚ)
  deriving Repr, DecidableEq

/-- The `friction` argument of `MujocoGeneratedObject.__init__`: `None`, a
scalar, or an array (`hasattr(type(friction), "__len__")`). -/
inductive FrictionArg where
  | noneArg
  | scalar (x : ℚ)
  | array (l : List ℚ)
  deriving Repr, DecidableEq

/-- The random draws consumed by one object construction: `sizeU i` is the
standardized `np.random.uniform(0, 1)` draw behind the i-th size component,
`rgbU i` the i-th `np.random.uniform(0, 1)` draw for the rgb channels, and
`densityIdx` / `frictionIdx` the indices picked by `np.random.choice` on the
density / friction ranges. -/
structure RNG where
  sizeU : ℕ → ℚ
  rgbU : ℕ → ℚ
  densityIdx : ℕ
  frictionIdx : ℕ

/-- `np.random.uniform(low, high)` with standardized draw `u ∈ [0, 1]`. -/
def npUniform (low high u : ℚ) : ℚ := low + u * (high - low)

/-- `np.random.choice(l)`: an element of `l` picked by the given draw;
raises on an empty list. -/
def npChoice (l : List ℚ) (idx : ℕ) : Except PyErr ℚ :=
  if h : l = [] then
    Except.error (PyErr.valueError "a must be non-empty")
  else
    Except.ok (l.get ⟨idx % l.length, Nat.mod_lt idx (List.length_pos.mpr h)⟩)

/-- Python list indexing `l[i]`, raising `IndexError` out of range. -/
def pyGet (l : List ℚ) (i : ℕ) : Except PyErr ℚ :=
  if h : i < l.length then Except.ok (l.get ⟨i, h⟩)
  else Except.error (PyErr.indexError "list index out of range")

/-- The attributes stored on a constructed `MujocoGeneratedObject`. -/
structure GenObj where
  size : List ℚ
  rgba : List ℚ
  density : ℚ
  friction : List ℚ
  deriving Repr, DecidableEq

/-- The `rgba` branch of `MujocoGeneratedObject.__init__`: default
`[1, 0, 0, 1]`; for `"random"` three fresh `uniform(0, 1)` draws with alpha
1; otherwise the given array after `assert len(rgba) == 4`. -/
def rgbaProc (rgbaArg : RgbaArg) (rng : RNG) : Except PyErr (List ℚ) :=
  match rgbaArg with
  | RgbaArg.noneArg => Except.ok [1, 0, 0, 1]
  | RgbaArg.random => Except.ok [rng.rgbU 0, rng.rgbU 1, rng.rgbU 2, 1]
  | RgbaArg.given l =>
    if l.length = 4 then Except.ok l
    else Except.error (PyErr.assertionError "rgba must be a length 4 array")

/-- The `density` branch of `MujocoGeneratedObject.__init__`: the supplied
density, else `np.random.choice(density_range)`, else `1000`. -/
def densityProc (densityArg : Option ℚ) (density_range : Option (List ℚ))
    (rng : RNG) : Except PyErr ℚ :=
  match densityArg with
  | none =>
    match density_range with
    | some r => npChoice r rng.densityIdx
    | none => Except.ok 1000
  | some d => Except.ok d

/-- The `friction` branch of `MujocoGeneratedObject.__init__`: `None` draws
the tangential coefficient from `friction_range` (default `1`), keeping the
Mujoco defaults `0.005` and `0.0001` for the other two coefficients; an
array must have length 3 and is stored as given; a scalar is completed with
the two defaults. -/
def frictionProc (frictionArg : FrictionArg) (friction_range : Option (List ℚ))
    (rng : RNG) : Except PyErr (List ℚ) :=
  match frictionArg with
  | FrictionArg.noneArg =>
    match friction_range with
    | some r =>
      match npChoice r rng.frictionIdx with
      | Except.error err => Except.error err
      | Except.ok fr => Except.ok [fr, 1/200, 1/10000]
    | none => Except.ok [1, 1/200, 1/10000]
  | FrictionArg.array l =>
    if l.length = 3 then Except.ok l
    else Except.error (PyErr.assertionError "friction must be a length 3 array or a float")
  | FrictionArg.scalar x => Except.ok [x, 1/200, 1/10000]

/-- `MujocoGeneratedObject.__init__(size, rgba, density, friction,
density_range, friction_range)` followed by the subclass `sanity_check`
(each subclass asserts a fixed length `sizeLen` of `size`).  The default
size is `[0.05, 0.05, 0.05]`. -/
def MujocoGeneratedObject.init (sizeArg : Option (List ℚ)) (rgbaArg : RgbaArg)
    (densityArg : Option ℚ) (frictionArg : FrictionArg)
    (density_range friction_range : Option (List ℚ)) (rng : RNG)
    (sizeLen : ℕ) : Except PyErr GenObj :=
  let size := match sizeArg with
    | none => [1/20, 1/20, 1/20]
    | some s => s
  match rgbaProc rgbaArg rng with
  | Except.error err => Except.error err
  | Except.ok rgba =>
    match densityProc densityArg density_range rng with
    | Except.error err => Except.error err
    | Except.ok density =>
      match frictionProc frictionArg friction_range rng with
      | Except.error err => Except.error err
      | Except.ok friction =>
        if size.length = sizeLen then
          Except.ok { size := size, rgba := rgba, density := density,
                      friction := friction }
        else
          Except.error (PyErr.assertionError "size length check failed")

/-- `DEFAULT_DENSITY_RANGE`. -/
def DEFAULT_DENSITY_RANGE : List ℚ := [200, 500, 1000, 3000, 5000]

/-- `DEFAULT_FRICTION_RANGE`. -/
def DEFAULT_FRICTION_RANGE : List ℚ := [1/4, 1/2, 1, 3/2, 2]

/-- The size comprehension
`[np.random.uniform(size_min[i], size_max[i]) for i in range(n)]`. -/
def drawSizes (smin smax : List ℚ) (rng : RNG) : ℕ → Except PyErr (List ℚ)
  | 0 => Except.ok []
  | n + 1 =>
    match drawSizes smin smax rng n with
    | Except.error err => Except.error err
    | Except.ok l =>
      match pyGet smin n with
      | Except.error err => Except.error err
      | Except.ok lo =>
        match pyGet smax n with
        | Except.error err => Except.error err
        | Except.ok hi => Except.ok (l ++ [npUniform lo hi (rng.sizeU n)])

/-- `RandomBoxObject.__init__`: default size bounds
`[0.03, 0.03, 0.03]`–`[0.07, 0.07, 0.07]`, three uniform size draws, the
default density and friction ranges when none are supplied, then
`BoxObject.__init__` (which runs `MujocoGeneratedObject.__init__` and the
length-3 sanity check). -/
def RandomBoxObject.init (size_max size_min : Option (List ℚ))
    (density_range friction_range : Option (List ℚ)) (rgbaArg : RgbaArg)
    (rng : RNG) : Except PyErr GenObj :=
  let smax := match size_max with
    | none => [7/100, 7/100, 7/100]
    | some s => s
  let smin := match size_min with
    | none => [3/100, 3/100, 3/100]
    | some s => s
  match drawSizes smin smax rng 3 with
  | Except.error err => Except.error err
  | Except.ok size =>
    let dr := match density_range with
      | none => DEFAULT_DENSITY_RANGE
      | some r => r
    let fr := match friction_range with
      | none => DEFAULT_FRICTION_RANGE
      | some r => r
    MujocoGeneratedObject.init (some size) rgbaArg none FrictionArg.noneArg
      (some dr) (some fr) rng 3

/-- `RandomCylinderObject.__init__`: as `RandomBoxObject` with two size
components and the length-2 cylinder sanity check. -/
def RandomCylinderObject.init (size_max size_min : Option (List ℚ))
    (density_range friction_range : Option (List ℚ)) (rgbaArg : RgbaArg)
    (rng : RNG) : Except PyErr GenObj :=
  let smax := match size_max with
    | none => [7/100, 7/100]
    | some s => s
  let smin := match size_min with
    | none => [3/100, 3/100]
    | some s => s
  match drawSizes smin smax rng 2 with
  | Except.error err => Except.error err
  | Except.ok size =>
    let dr := match density_range with
      | none => DEFAULT_DENSITY_RANGE
      | some r => r
    let fr := match friction_range with
      | none => DEFAULT_FRICTION_RANGE
      | some r => r
    MujocoGeneratedObject.init (some size) rgbaArg none FrictionArg.noneArg
      (some dr) (some fr) rng 2

/-- `RandomBallObject.__init__`: as `RandomBoxObject` with one size
component and the length-1 ball sanity check. -/
def RandomBallObject.init (size_max size_min : Option (List ℚ))
    (density_range friction_range : Option (List ℚ)) (rgbaArg : RgbaArg)
    (rng : RNG) : Except PyErr GenObj :=
  let smax := match size_max with
    | none => [7/100]
    | some s => s
  let smin := match size_min with
    | none => [3/100]
    | some s => s
  match drawSizes smin smax rng 1 with
  | Except.error err => Except.error err
  | Except.ok size =>
    let dr := match density_range with
      | none => DEFAULT_DENSITY_RANGE
      | some r => r
    let fr := match friction_range with
      | none => DEFAULT_FRICTION_RANGE
      | some r => r
    MujocoGeneratedObject.init (some size) rgbaArg none FrictionArg.noneArg
      (some dr) (some fr) rng 1

/-- `RandomCapsuleObject.__init__(size_max, size_min, rgba)`: its signature
has no `density_range` / `friction_range` parameters, yet after the size
draws the body executes `if density_range is None`.  Since `density_range`
is assigned later in the same function body, Python treats it as a local
variable that has no value at that point, so every call raises
`UnboundLocalError` there. -/
def RandomCapsuleObject.init (size_max size_min : Option (List ℚ))
    (rgbaArg : RgbaArg) (rng : RNG) : Except PyErr GenObj :=
  let smax := match size_max with
    | none => [7/100, 7/100]
    | some s => s
  let smin := match size_min with
    | none => [3/100, 3/100]
    | some s => s
  match drawSizes smin smax rng 2 with
  | Except.error err => Except.error err
  | Except.ok _size =>
    Except.error (PyErr.unboundLocalError
      "local variable density_range referenced before assignment")

/-- `array_to_string` from `MujocoManip.models.model_util` (that module is
not part of the analysed sources): space-separated decimal rendering of an
array, used only to fill XML attribute strings. -/
def array_to_string (l : List ℚ) : String :=
  String.intercalate " " (l.map toString)

/-- `MujocoGeneratedObject._get_collision(name, site, ob_type)`: a fresh
`<body>` (carrying `name` when given) with a `geom` child whose attributes
are the collision template (`pos`, `group`, optional `name`) plus `type`,
`rgba`, `size`, `density` and `friction`, and an optional site child. -/
def MujocoGeneratedObject.getCollision (o : GenObj) (name : Option String)
    (site : Bool) (ob_type : String) : Element :=
  let bodyAttrib : List (String × String) :=
    match name with
    | some n => [("name", n)]
    | none => []
  let template0 : List (String × String) := [("pos", "0 0 0"), ("group", "1")]
  let template1 :=
    match name with
    | some n => dictSet template0 "name" n
    | none => template0
  let template2 :=
    dictSet (dictSet (dictSet (dictSet (dictSet template1
      "type" ob_type) "rgba" (array_to_string o.rgba))
      "size" (array_to_string o.size)) "density" (toString o.density))
      "friction" (array_to_string o.friction)
  let geom := Element.elem "geom" template2 []
  let children := if site then [geom, siteElement name] else [geom]
  Element.elem "body" bodyAttrib children

/-- `BoxObject.get_collision`: `_get_collision` with `ob_type="box"`. -/
def BoxObject.get_collision (o : GenObj) (name : Option String) (site : Bool) :
    Element :=
  MujocoGeneratedObject.getCollision o name site "box"

/-- `CylinderObject.get_collision`: `ob_type="cylinder"`. -/
def CylinderObject.get_collision (o : GenObj) (name : Option String)
    (site : Bool) : Element :=
  MujocoGeneratedObject.getCollision o name site "cylinder"

/-- `BallObject.get_collision`: `ob_type="sphere"`. -/
def BallObject.get_collision (o : GenObj) (name : Option String) (site : Bool) :
    Element :=
  MujocoGeneratedObject.getCollision o name site "sphere"

/-- `CapsuleObject.get_collision`: `ob_type="capsule"`. -/
def CapsuleObject.get_collision (o : GenObj) (name : Option String)
    (site : Bool) : Element :=
  MujocoGeneratedObject.getCollision o name site "capsule"

/-- The `type` attribute of the first `geom` child of a body element. -/
def firstGeomType (b : Element) : Option String :=
  (b.children.find? (fun c => c.tag == "geom")).bind
    (fun g => dictGet g.attrib "type")

/-- The parameters of the four generated primitive shapes, as constrained by
each subclass `sanity_check`: `BoxObject` has `size = [s0, s1, s2]`,
`CylinderObject` and `CapsuleObject` have `size = [r, h]`, `BallObject` has
`size = [r]`.  Sizes are modelled over `ℝ` because `BoxObject` computes a
Euclidean norm. -/
inductive GenShape where
  | box (s0 s1 s2 : ℝ)
  | cylinder (r h : ℝ)
  | ball (r : ℝ)
  | capsule (r h : ℝ)

/-- `get_horizontal_radius` of each generated-object class: `BoxObject`
returns `np.linalg.norm(self.size[0:2], 2)`; `CylinderObject`, `BallObject`
and `CapsuleObject` return `self.size[0]`. -/
noncomputable def GenShape.get_horizontal_radius : GenShape → ℝ
  | GenShape.box s0 s1 _ => Real.sqrt (s0 ^ 2 + s1 ^ 2)
  | GenShape.cylinder r _ => r
  | GenShape.ball r => r
  | GenShape.capsule r _ => r

/-- The horizontal footprint of the collision geometry of a shape placed
with its axis vertical at horizontal center `c`: the projection of the geom
onto the xy-plane.  A box geom of half-extents `s0, s1` projects to an
axis-aligned rectangle; cylinder, sphere and capsule geoms project to the
disk of radius `size[0]`. -/
def GenShape.footprint :
    GenShape → EuclideanSpace ℝ (Fin 2) → Set (EuclideanSpace ℝ (Fin 2))
  | GenShape.box s0 s1 _, c => {p | |p 0 - c 0| ≤ s0 ∧ |p 1 - c 1| ≤ s1}
  | GenShape.cylinder r _, c => Metric.closedBall c r
  | GenShape.ball r, c => Metric.closedBall c r
  | GenShape.capsule r _, c => Metric.closedBall c r

theorem footprint_subset_closedBall (s : GenShape) (c : EuclideanSpace ℝ (Fin 2)) :
    s.footprint c ⊆ Metric.closedBall c s.get_horizontal_radius := by
  cases s with
  | box s0 s1 s2 =>
    intro p hp
    obtain ⟨h0, h1⟩ := hp
    rw [Metric.mem_closedBall, EuclideanSpace.dist_eq, Fin.sum_univ_two]
    refine Real.sqrt_le_sqrt ?_
    have e0 : dist (p 0) (c 0) = |p 0 - c 0| := Real.dist_eq _ _
    have e1 : dist (p 1) (c 1) = |p 1 - c 1| := Real.dist_eq _ _
    rw [e0, e1]
    have b0 : |p 0 - c 0| ^ 2 ≤ s0 ^ 2 := by
      have := abs_nonneg (p 0 - c 0)
      nlinarith
    have b1 : |p 1 - c 1| ^ 2 ≤ s1 ^ 2 := by
      have := abs_nonneg (p 1 - c 1)
      nlinarith
    linarith
  | cylinder r h => exact subset_rfl
  | ball r => exact subset_rfl
  | capsule r h => exact subset_rfl

/-- A headless environment state as left by a successful
`_reset_internal` with `control_freq = 100` on a model of timestep
`1/500`. -/
def sampleEnv : EnvState :=
  { display := false, control_freq := 100, horizon := 500,
    ignore_done := false, viewer := false, cur_time := 0,
    model_timestep := 1/500, control_timestep := 1/100,
    sim_timestep := 1/500, t := 0, done := false, ctrl := none,
    simStepCount := 0, sim_state_initial := 0, trace := [] }

/-- A subclass configuration: model timestep `1/500`, never terminated. -/
def sampleCfg : EnvConfig :=
  { modelTimestep := 1/500, checkTerminated := fun _ => false }

/-- C5: `initialize_time(control_freq)` raises `XMLError` iff the model
timestep is non-positive; raises `SimulationError` iff the timestep is
positive but `control_freq` is non-positive; and otherwise succeeds with
`control_timestep = 1 / control_freq` and `cur_time = 0`. -/
theorem spec_C5 (e : EnvState) (f : ℚ) :
    ((∃ m, MujocoEnv.initialize_time e f = Except.error (PyErr.xmlError m)) ↔
      e.sim_timestep ≤ 0) ∧
    ((∃ m, MujocoEnv.initialize_time e f = Except.error (PyErr.simulationError m)) ↔
      (0 < e.sim_timestep ∧ f ≤ 0)) ∧
    (0 < e.sim_timestep → 0 < f →
      ∃ e1, MujocoEnv.initialize_time e f = Except.ok e1 ∧
        e1.control_timestep = 1 / f ∧ e1.cur_time = 0) := by
  unfold MujocoEnv.initialize_time
  refine ⟨?_, ?_, ?_⟩
  · by_cases h1 : e.sim_timestep ≤ 0
    · simp [h1]
    · by_cases h2 : f ≤ 0 <;> simp [h1, h2]
  · by_cases h1 : e.sim_timestep ≤ 0
    · simp [h1]
    · by_cases h2 : f ≤ 0
      · simp [h1, h2]
        exact not_le.mp h1
      · simp [h1, h2]
  · intro hts hf
    have h1 : ¬ (e.sim_timestep ≤ 0) := not_le.mpr hts
    have h2 : ¬ (f ≤ 0) := not_le.mpr hf
    simp [h1, h2]

/-- C5 witness: at a positive model timestep and `control_freq = 100` the
call succeeds with `control_timestep = 1/100` and `cur_time = 0`. -/
theorem spec_C5_witness :
    (0:ℚ) < sampleEnv.sim_timestep ∧ (0:ℚ) < 100 ∧
    (∃ e1, MujocoEnv.initialize_time sampleEnv 100 = Except.ok e1 ∧
      e1.control_timestep = 1 / 100 ∧ e1.cur_time = 0) :=
  ⟨by norm_num [sampleEnv], by norm_num,
    (spec_C5 sampleEnv 100).2.2 (by norm_num [sampleEnv]) (by norm_num)⟩

/-- C8: calling `step` on a terminated environment raises
`ValueError("executing action in terminated episode")` and leaves the whole
environment state (including the simulation view) unchanged. -/
theorem spec_C8 (cfg : EnvConfig) (e : EnvState) (action : List ℚ)
    (hδ : 0 < e.model_timestep) (hdone : e.done = true) :
    MujocoEnv.step cfg e action hδ =
      (Except.error (PyErr.valueError "executing action in terminated episode"), e) := by
  unfold MujocoEnv.step
  rw [hdone]
  simp

/-- C8 witness: a concrete terminated state. -/
theorem spec_C8_witness :
    (0:ℚ) < ({ sampleEnv with done := true } : EnvState).model_timestep ∧
    ({ sampleEnv with done := true } : EnvState).done = true ∧
    MujocoEnv.step sampleCfg { sampleEnv with done := true } [0] (by norm_num [sampleEnv]) =
      (Except.error (PyErr.valueError "executing action in terminated episode"),
       { sampleEnv with done := true }) :=
  ⟨by norm_num [sampleEnv], rfl,
    spec_C8 sampleCfg { sampleEnv with done := true } [0]
      (by norm_num [sampleEnv]) rfl⟩

/-- C1: on a non-terminated environment with physics timestep `δ > 0` and
control frequency `f > 0` (so `control_timestep = 1/f`), one `step` call
returns normally, writes the action to the controls, calls `sim.step`
exactly `⌈(1/f)/δ⌉` times, increases `cur_time` by exactly that count times
`δ` (which is at least one control period `1/f`), and increments `t` by
exactly 1. -/
theorem spec_C1 (cfg : EnvConfig) (e : EnvState) (action : List ℚ) (f : ℚ)
    (hδ : 0 < e.model_timestep) (hf : 0 < f)
    (hct : e.control_timestep = 1 / f) (hdone : e.done = false) :
    (∃ res, (MujocoEnv.step cfg e action hδ).1 = Except.ok res) ∧
    (MujocoEnv.step cfg e action hδ).2.ctrl = some action ∧
    (MujocoEnv.step cfg e action hδ).2.simStepCount =
      e.simStepCount + (Int.ceil (1 / f / e.model_timestep)).toNat ∧
    (MujocoEnv.step cfg e action hδ).2.cur_time =
      e.cur_time + ((Int.ceil (1 / f / e.model_timestep)).toNat : ℚ) * e.model_timestep ∧
    1 / f ≤ ((Int.ceil (1 / f / e.model_timestep)).toNat : ℚ) * e.model_timestep ∧
    (MujocoEnv.step cfg e action hδ).2.t = e.t + 1 := by
  have harg : (e.cur_time + e.control_timestep - e.cur_time) / e.model_timestep =
      1 / f / e.model_timestep := by
    rw [add_sub_cancel_left, hct]
  have hloop := MujocoEnv.simLoop_closed e.model_timestep hδ
    ((Int.ceil (1 / f / e.model_timestep)).toNat)
    (e.cur_time + e.control_timestep) e.cur_time 0 (by rw [harg])
  have hx : 0 < 1 / f / e.model_timestep := div_pos (by positivity) hδ
  have hc : 0 < Int.ceil (1 / f / e.model_timestep) := Int.ceil_pos.mpr hx
  have hcast : (((Int.ceil (1 / f / e.model_timestep)).toNat : ℕ) : ℚ) =
      ((Int.ceil (1 / f / e.model_timestep) : ℤ) : ℚ) := by
    exact_mod_cast Int.toNat_of_nonneg hc.le
  have h1 : 1 / f / e.model_timestep ≤
      (((Int.ceil (1 / f / e.model_timestep)).toNat : ℕ) : ℚ) := by
    rw [hcast]
    exact Int.le_ceil _
  have hineq : 1 / f ≤
      (((Int.ceil (1 / f / e.model_timestep)).toNat : ℕ) : ℚ) * e.model_timestep := by
    have h2 := mul_le_mul_of_nonneg_right h1 hδ.le
    rw [div_mul_cancel₀ _ hδ.ne'] at h2
    exact h2
  unfold MujocoEnv.step
  rw [hdone, if_pos rfl]
  refine ⟨⟨_, rfl⟩, rfl, ?_, ?_, hineq, rfl⟩
  · show e.simStepCount +
      (MujocoEnv.simLoop e.model_timestep hδ (e.cur_time + e.control_timestep) e.cur_time 0).2 = _
    rw [hloop]
    simp
  · show (MujocoEnv.simLoop e.model_timestep hδ (e.cur_time + e.control_timestep) e.cur_time 0).1 = _
    rw [hloop]

/-- C1 witness: `sampleEnv` with `f = 100`, `δ = 1/500`, so
`⌈(1/f)/δ⌉ = 5`. -/
theorem spec_C1_witness :
    (0:ℚ) < sampleEnv.model_timestep ∧ (0:ℚ) < 100 ∧
    sampleEnv.control_timestep = 1 / 100 ∧ sampleEnv.done = false ∧
    ((∃ res, (MujocoEnv.step sampleCfg sampleEnv [1] (by norm_num [sampleEnv])).1 = Except.ok res) ∧
     (MujocoEnv.step sampleCfg sampleEnv [1] (by norm_num [sampleEnv])).2.ctrl = some [1] ∧
     (MujocoEnv.step sampleCfg sampleEnv [1] (by norm_num [sampleEnv])).2.simStepCount =
       sampleEnv.simStepCount + (Int.ceil (1 / 100 / sampleEnv.model_timestep)).toNat ∧
     (MujocoEnv.step sampleCfg sampleEnv [1] (by norm_num [sampleEnv])).2.cur_time =
       sampleEnv.cur_time +
         ((Int.ceil (1 / 100 / sampleEnv.model_timestep)).toNat : ℚ) * sampleEnv.model_timestep ∧
     1 / 100 ≤ ((Int.ceil (1 / 100 / sampleEnv.model_timestep)).toNat : ℚ) * sampleEnv.model_timestep ∧
     (MujocoEnv.step sampleCfg sampleEnv [1] (by norm_num [sampleEnv])).2.t = sampleEnv.t + 1) :=
  ⟨by norm_num [sampleEnv], by norm_num, rfl, rfl,
   spec_C1 sampleCfg sampleEnv [1] 100 (by norm_num [sampleEnv]) (by norm_num) rfl rfl⟩

theorem step_ignore_done (cfg : EnvConfig) (e : EnvState) (action : List ℚ)
    (hδ : 0 < e.model_timestep) (hig : e.ignore_done = true)
    (hdone : e.done = false) :
    (MujocoEnv.step cfg e action hδ).1 = Except.ok ((), 0, false) ∧
    (MujocoEnv.step cfg e action hδ).2.done = false ∧
    (MujocoEnv.step cfg e action hδ).2.ignore_done = true := by
  unfold MujocoEnv.step
  rw [hdone, if_pos rfl]
  refine ⟨?_, ?_, hig⟩
  · show Except.ok ((), 0,
      ((cfg.checkTerminated _ || decide (e.horizon ≤ e.t + 1)) && !e.ignore_done)) =
      Except.ok ((), (0:ℚ), false)
    rw [hig]
    simp
  · show ((cfg.checkTerminated _ || decide (e.horizon ≤ e.t + 1)) && !e.ignore_done) = false
    rw [hig]
    simp

/-- C9: from any non-terminated state of an environment with
`ignore_done = True`, any number of `step` calls returns normally
(`_post_action` always computes `done = False`), so the
terminated-episode `ValueError` is never raised and `done` stays
`False`, regardless of `horizon` and `_check_terminated`. -/
theorem spec_C9 (cfg : EnvConfig) (action : List ℚ) (n : ℕ) :
    ∀ (e : EnvState) (hδ : 0 < e.model_timestep),
      e.ignore_done = true → e.done = false →
      (MujocoEnv.stepN cfg action n e hδ).1 = Except.ok () ∧
      (MujocoEnv.stepN cfg action n e hδ).2.done = false := by
  induction n with
  | zero =>
    intro e hδ hig hdone
    exact ⟨rfl, hdone⟩
  | succ n ih =>
    intro e hδ hig hdone
    obtain ⟨h1, h2, h3⟩ := step_ignore_done cfg e action hδ hig hdone
    unfold MujocoEnv.stepN
    split
    · rename_i err e1 heq
      rw [heq] at h1
      exact absurd h1 (by simp)
    · rename_i val e1 heq
      apply ih
      · rw [heq] at h3
        exact h3
      · rw [heq] at h2
        exact h2

/-- C9 witness: three steps on a concrete `ignore_done` environment. -/
theorem spec_C9_witness :
    (0:ℚ) < ({ sampleEnv with ignore_done := true } : EnvState).model_timestep ∧
    ({ sampleEnv with ignore_done := true } : EnvState).ignore_done = true ∧
    ({ sampleEnv with ignore_done := true } : EnvState).done = false ∧
    (MujocoEnv.stepN sampleCfg [1] 3 { sampleEnv with ignore_done := true }
      (by norm_num [sampleEnv])).1 = Except.ok () ∧
    (MujocoEnv.stepN sampleCfg [1] 3 { sampleEnv with ignore_done := true }
      (by norm_num [sampleEnv])).2.done = false :=
  ⟨by norm_num [sampleEnv], rfl, rfl,
   (spec_C9 sampleCfg [1] 3 { sampleEnv with ignore_done := true }
     (by norm_num [sampleEnv]) rfl rfl).1,
   (spec_C9 sampleCfg [1] 3 { sampleEnv with ignore_done := true }
     (by norm_num [sampleEnv]) rfl rfl).2⟩

/-- C4: `reset()` first closes any active viewer, then performs, in order,
load model, build simulation, initialize time, (viewer creation when
displaying,) capture initial simulation state, set up references;
afterwards `cur_time = 0`, `t = 0`, `done = False`, and it returns the
value of `_get_observation()`. -/
theorem spec_C4 (cfg : EnvConfig) (e : EnvState)
    (hts : 0 < cfg.modelTimestep) (hf : 0 < e.control_freq) :
    ∃ e2, MujocoEnv.reset cfg e = Except.ok (MujocoEnv.get_observation e2, e2) ∧
      e2.trace = e.trace
        ++ (if e.viewer then [Event.closeViewer] else [])
        ++ [Event.loadModel, Event.buildSim, Event.initTime]
        ++ (if e.display then [Event.viewerInit] else [])
        ++ [Event.captureState, Event.getReference] ∧
      e2.cur_time = 0 ∧ e2.t = 0 ∧ e2.done = false := by
  have h1 : ¬ (cfg.modelTimestep ≤ 0) := not_le.mpr hts
  have h2 : ¬ (e.control_freq ≤ 0) := not_le.mpr hf
  unfold MujocoEnv.reset MujocoEnv.close MujocoEnv.reset_internal
    MujocoEnv.initialize_time
  by_cases hv : e.viewer = true
  all_goals by_cases hd : e.display = true
  all_goals simp [hv, hd, h1, h2, MujocoEnv.get_observation]

/-- C4 witness: a concrete headless environment and model. -/
theorem spec_C4_witness :
    (0:ℚ) < sampleCfg.modelTimestep ∧ (0:ℚ) < sampleEnv.control_freq ∧
    (∃ e2, MujocoEnv.reset sampleCfg sampleEnv =
        Except.ok (MujocoEnv.get_observation e2, e2) ∧
      e2.trace = sampleEnv.trace
        ++ (if sampleEnv.viewer then [Event.closeViewer] else [])
        ++ [Event.loadModel, Event.buildSim, Event.initTime]
        ++ (if sampleEnv.display then [Event.viewerInit] else [])
        ++ [Event.captureState, Event.getReference] ∧
      e2.cur_time = 0 ∧ e2.t = 0 ∧ e2.done = false) :=
  ⟨by norm_num [sampleCfg], by norm_num [sampleEnv],
   spec_C4 sampleCfg sampleEnv (by norm_num [sampleCfg]) (by norm_num [sampleEnv])⟩

theorem dictGet_pop_self (d : List (String × String)) (k : String) :
    dictGet (d.filter (fun kv => !(kv.1 == k))) k = none := by
  have h0 : (d.filter (fun kv => !(kv.1 == k))).find? (fun kv => kv.1 == k) = none := by
    rw [List.find?_eq_none]
    intro x hx
    have hkeep := (List.mem_filter.mp hx).2
    simpa using hkeep
  simp [dictGet, h0]

theorem dictGet_dictSet_self (d : List (String × String)) (k v : String) :
    dictGet (dictSet d k v) k = some v := by
  unfold dictSet
  by_cases h : (d.find? (fun kv => kv.1 == k)).isSome
  · rw [if_pos h]
    unfold dictGet
    rw [List.find?_map]
    have hpf : ((fun kv : String × String => kv.1 == k) ∘
        (fun kv => if kv.1 == k then (k, v) else kv)) = (fun kv => kv.1 == k) := by
      funext kv
      by_cases hk : kv.1 = k
      · simp [hk]
      · simp [hk]
    rw [hpf]
    obtain ⟨a, ha⟩ := Option.isSome_iff_exists.mp h
    rw [ha]
    have hpa := List.find?_some ha
    have hpa2 : a.1 = k := by simpa using hpa
    simp [hpa2]
  · rw [if_neg h]
    unfold dictGet
    rw [List.find?_append, Option.not_isSome_iff_eq_none.mp h]
    simp

/-- C7: `get_collision(name, site)` leaves the stored worldbody of the object
unchanged (the returned element is built from a deep copy), the returned
body carries a `name` attribute exactly when a non-None name was passed
(and then it is the passed name), and a site child is appended to the
copied children exactly when `site = True`. -/
theorem spec_C7 (wb : Element) (name : Option String) (site : Bool)
    (b : Element) (hfind : findBodyNamed wb "collision" = some b) :
    ∃ res, MujocoXMLObject.get_collision wb name site = (Except.ok res, wb) ∧
      (match name with
       | some n => dictGet res.attrib "name" = some n
       | none => dictGet res.attrib "name" = none) ∧
      res.children = b.children ++ (if site then [siteElement name] else []) := by
  have hpred := List.find?_some hfind
  have hname : (b.attrib.find? (fun kv => kv.1 == "name")).isSome := by
    have hget : dictGet b.attrib "name" = some "collision" := by
      have := (Bool.and_eq_true _ _).mp hpred
      have h2 := this.2
      simpa using h2
    unfold dictGet at hget
    cases hf : b.attrib.find? (fun kv => kv.1 == "name") with
    | none => rw [hf] at hget; simp at hget
    | some a => simp
  unfold MujocoXMLObject.get_collision
  rw [hfind]
  unfold dictPop
  dsimp only
  rw [if_pos hname]
  cases name with
  | none =>
    refine ⟨_, rfl, ?_, ?_⟩
    · exact dictGet_pop_self b.attrib "name"
    · cases site <;> simp [Element.children]
  | some n =>
    refine ⟨_, rfl, ?_, ?_⟩
    · exact dictGet_dictSet_self _ "name" n
    · cases site <;> simp [Element.children]

/-- A worldbody holding a `<body name="collision">` with one geom child. -/
def sampleWorldbody : Element :=
  Element.elem "worldbody" []
    [Element.elem "body" [("name", "collision")]
      [Element.elem "geom" [("type", "box")] []]]

/-- C7 witness: the concrete worldbody, a name and a site request. -/
theorem spec_C7_witness :
    findBodyNamed sampleWorldbody "collision" =
      some (Element.elem "body" [("name", "collision")]
        [Element.elem "geom" [("type", "box")] []]) ∧
    (∃ res, MujocoXMLObject.get_collision sampleWorldbody (some "obj0") true =
        (Except.ok res, sampleWorldbody) ∧
      dictGet res.attrib "name" = some "obj0" ∧
      res.children =
        (Element.elem "body" [("name", "collision")]
          [Element.elem "geom" [("type", "box")] []]).children
          ++ [siteElement (some "obj0")]) :=
  ⟨rfl,
   match spec_C7 sampleWorldbody (some "obj0") true
     (Element.elem "body" [("name", "collision")]
       [Element.elem "geom" [("type", "box")] []]) rfl with
   | ⟨res, h1, h2, h3⟩ => ⟨res, h1, h2, by simpa using h3⟩⟩

/-- A worldbody holding a `<body name="visual">` with one geom child. -/
def sampleVisualWorldbody : Element :=
  Element.elem "worldbody" []
    [Element.elem "body" [("name", "visual")]
      [Element.elem "geom" [("type", "box")] []]]

/-- C6: contrary to the claim, `get_visual(name)` with a non-None name does
not return a named copy of the visual subtree: the source line
`visual.attrib.set("name", name)` calls a method that Python dicts do not
have, so the call raises `AttributeError`.  Evaluated here on a concrete
object and name. -/
theorem spec_C6_bug :
    (MujocoXMLObject.get_visual sampleVisualWorldbody (some "obj1") false).1 =
      Except.error (PyErr.attributeError "dict object has no attribute set") :=
  rfl

theorem npChoice_mem (l : List ℚ) (idx : ℕ) (x : ℚ)
    (h : npChoice l idx = Except.ok x) : x ∈ l := by
  unfold npChoice at h
  split at h
  · exact absurd h (by simp)
  · injection h with h2
    rw [← h2]
    exact List.get_mem _ _ _

theorem rgbaProc_ok_length (a : RgbaArg) (rng : RNG) (l : List ℚ)
    (h : rgbaProc a rng = Except.ok l) : l.length = 4 := by
  cases a with
  | noneArg =>
    simp only [rgbaProc] at h
    injection h with h2
    rw [← h2]
    rfl
  | random =>
    simp only [rgbaProc] at h
    injection h with h2
    rw [← h2]
    rfl
  | given l0 =>
    simp only [rgbaProc] at h
    split at h
    · injection h with h2
      rw [← h2]
      assumption
    · exact absurd h (by simp)

theorem rgbaProc_random_alpha (rng : RNG) (l : List ℚ)
    (h : rgbaProc RgbaArg.random rng = Except.ok l) : l.get? 3 = some 1 := by
  simp only [rgbaProc] at h
  injection h with h2
  rw [← h2]
  rfl

theorem frictionProc_ok_length (a : FrictionArg) (fr : Option (List ℚ))
    (rng : RNG) (l : List ℚ) (h : frictionProc a fr rng = Except.ok l) :
    l.length = 3 := by
  cases a with
  | noneArg =>
    simp only [frictionProc] at h
    cases fr with
    | none =>
      injection h with h2
      rw [← h2]
      rfl
    | some r =>
      dsimp only at h
      cases hc : npChoice r rng.frictionIdx with
      | error err =>
        rw [hc] at h
        exact absurd h (by simp)
      | ok fr0 =>
        rw [hc] at h
        injection h with h2
        rw [← h2]
        rfl
  | scalar x =>
    simp only [frictionProc] at h
    injection h with h2
    rw [← h2]
    rfl
  | array l0 =>
    simp only [frictionProc] at h
    split at h
    · injection h with h2
      rw [← h2]
      assumption
    · exact absurd h (by simp)

theorem frictionProc_array_eq (l0 : List ℚ) (fr : Option (List ℚ)) (rng : RNG)
    (l : List ℚ) (h : frictionProc (FrictionArg.array l0) fr rng = Except.ok l) :
    l = l0 := by
  simp only [frictionProc] at h
  split at h
  · injection h with h2
    exact h2.symm
  · exact absurd h (by simp)

theorem frictionProc_defaults (a : FrictionArg) (fr : Option (List ℚ))
    (rng : RNG) (l : List ℚ) (ha : ∀ l0, a ≠ FrictionArg.array l0)
    (h : frictionProc a fr rng = Except.ok l) :
    l.get? 1 = some (1/200) ∧ l.get? 2 = some (1/10000) := by
  cases a with
  | noneArg =>
    simp only [frictionProc] at h
    cases fr with
    | none =>
      injection h with h2
      rw [← h2]
      exact ⟨rfl, rfl⟩
    | some r =>
      dsimp only at h
      cases hc : npChoice r rng.frictionIdx with
      | error err =>
        rw [hc] at h
        exact absurd h (by simp)
      | ok fr0 =>
        rw [hc] at h
        injection h with h2
        rw [← h2]
        exact ⟨rfl, rfl⟩
  | scalar x =>
    simp only [frictionProc] at h
    injection h with h2
    rw [← h2]
    exact ⟨rfl, rfl⟩
  | array l0 => exact absurd rfl (ha l0)

theorem densityProc_some (d : ℚ) (dr : Option (List ℚ)) (rng : RNG) (x : ℚ)
    (h : densityProc (some d) dr rng = Except.ok x) : x = d := by
  simp only [densityProc] at h
  injection h with h2
  exact h2.symm

/-- C10: every successfully constructed `MujocoGeneratedObject` has an
rgba of length 4 (with alpha 1 when `rgba="random"` was passed), a
friction of length 3 whose second and third coefficients are the Mujoco
defaults `0.005` and `0.0001` unless a full length-3 friction was supplied,
and a density equal to the supplied one, or a member of the supplied
density range, or `1000` when neither was supplied. -/
theorem spec_C10 (sizeArg : Option (List ℚ)) (rgbaArg : RgbaArg)
    (densityArg : Option ℚ) (frictionArg : FrictionArg)
    (dr fr : Option (List ℚ)) (rng : RNG) (sizeLen : ℕ) (obj : GenObj)
    (h : MujocoGeneratedObject.init sizeArg rgbaArg densityArg frictionArg
      dr fr rng sizeLen = Except.ok obj) :
    obj.rgba.length = 4 ∧
    (rgbaArg = RgbaArg.random → obj.rgba.get? 3 = some 1) ∧
    obj.friction.length = 3 ∧
    (∀ l, frictionArg = FrictionArg.array l → obj.friction = l) ∧
    ((∀ l, frictionArg ≠ FrictionArg.array l) →
      obj.friction.get? 1 = some (1/200) ∧ obj.friction.get? 2 = some (1/10000)) ∧
    (∀ d, densityArg = some d → obj.density = d) ∧
    (densityArg = none →
      (match dr with
       | some r => obj.density ∈ r
       | none => obj.density = 1000)) := by
  unfold MujocoGeneratedObject.init at h
  cases sizeArg <;> dsimp only at h <;>
  · cases hrgba : rgbaProc rgbaArg rng with
    | error err =>
      rw [hrgba] at h
      exact absurd h (by simp)
    | ok rgba =>
      rw [hrgba] at h
      dsimp only at h
      cases hdensity : densityProc densityArg dr rng with
      | error err =>
        rw [hdensity] at h
        exact absurd h (by simp)
      | ok density =>
        rw [hdensity] at h
        dsimp only at h
        cases hfriction : frictionProc frictionArg fr rng with
        | error err =>
          rw [hfriction] at h
          exact absurd h (by simp)
        | ok friction =>
          rw [hfriction] at h
          dsimp only at h
          split at h
          · injection h with h2
            subst h2
            refine ⟨rgbaProc_ok_length _ _ _ hrgba, ?_, ?_, ?_, ?_, ?_, ?_⟩
            · intro hr
              rw [hr] at hrgba
              exact rgbaProc_random_alpha _ _ hrgba
            · exact frictionProc_ok_length _ _ _ _ hfriction
            · intro l hl
              rw [hl] at hfriction
              exact frictionProc_array_eq _ _ _ _ hfriction
            · intro ha
              exact frictionProc_defaults _ _ _ _ ha hfriction
            · intro d hd
              rw [hd] at hdensity
              exact densityProc_some _ _ _ _ hdensity
            · intro hd
              rw [hd] at hdensity
              cases dr with
              | some r =>
                simp only [densityProc] at hdensity
                exact npChoice_mem _ _ _ hdensity
              | none =>
                simp only [densityProc] at hdensity
                injection hdensity with h3
                exact h3.symm
          · exact absurd h (by simp)

/-- A concrete stream of draws: every uniform draw is `1/2`, every choice
picks index 0. -/
def rng0 : RNG :=
  { sizeU := fun _ => 1/2, rgbU := fun _ => 1/2, densityIdx := 0, frictionIdx := 0 }

/-- The object built by `MujocoGeneratedObject.__init__` with every
argument left at its default. -/
def genObj0 : GenObj :=
  { size := [1/20, 1/20, 1/20], rgba := [1, 0, 0, 1], density := 1000,
    friction := [1, 1/200, 1/10000] }

/-- C10 witness: the all-defaults construction. -/
theorem spec_C10_witness :
    MujocoGeneratedObject.init none RgbaArg.noneArg none FrictionArg.noneArg
      none none rng0 3 = Except.ok genObj0 ∧
    (genObj0.rgba.length = 4 ∧
     (RgbaArg.noneArg = RgbaArg.random → genObj0.rgba.get? 3 = some 1) ∧
     genObj0.friction.length = 3 ∧
     (∀ l, FrictionArg.noneArg = FrictionArg.array l → genObj0.friction = l) ∧
     ((∀ l, FrictionArg.noneArg ≠ FrictionArg.array l) →
       genObj0.friction.get? 1 = some (1/200) ∧
       genObj0.friction.get? 2 = some (1/10000)) ∧
     (∀ d, (none : Option ℚ) = some d → genObj0.density = d) ∧
     ((none : Option ℚ) = none →
       (match (none : Option (List ℚ)) with
        | some r => genObj0.density ∈ r
        | none => genObj0.density = 1000))) :=
  ⟨rfl, spec_C10 none RgbaArg.noneArg none FrictionArg.noneArg none none
    rng0 3 genObj0 rfl⟩

theorem npUniform_mem (low high u : ℚ) (hlh : low ≤ high) (h0 : 0 ≤ u)
    (h1 : u ≤ 1) : low ≤ npUniform low high u ∧ npUniform low high u ≤ high := by
  unfold npUniform
  constructor <;> nlinarith

/-- C2: with default arguments, `RandomBoxObject`, `RandomCylinderObject`
and `RandomBallObject` construct successfully, with the collision geom type
`box` / `cylinder` / `sphere`, sizes drawn in `[size_min, size_max]`,
density drawn from the density range, friction drawn from the friction
range and a random rgba with alpha 1 — but `RandomCapsuleObject` raises
`UnboundLocalError` on every construction, because its `__init__` reads the
local variable `density_range` before assignment (the parameter is missing
from its signature), so the capsule part of the claim fails on the code. -/
theorem spec_C2_bug (rng : RNG) (hu : ∀ i, 0 ≤ rng.sizeU i ∧ rng.sizeU i ≤ 1) :
    (∃ obj, RandomBoxObject.init none none none none RgbaArg.random rng =
        Except.ok obj ∧
      (BoxObject.get_collision obj none false).tag = "body" ∧
      firstGeomType (BoxObject.get_collision obj none false) = some "box" ∧
      obj.size.length = 3 ∧
      (∀ x ∈ obj.size, 3/100 ≤ x ∧ x ≤ 7/100) ∧
      obj.density ∈ DEFAULT_DENSITY_RANGE ∧
      (∃ f0 ∈ DEFAULT_FRICTION_RANGE, obj.friction = [f0, 1/200, 1/10000]) ∧
      obj.rgba.get? 3 = some 1) ∧
    (∃ obj, RandomCylinderObject.init none none none none RgbaArg.random rng =
        Except.ok obj ∧
      (CylinderObject.get_collision obj none false).tag = "body" ∧
      firstGeomType (CylinderObject.get_collision obj none false) = some "cylinder" ∧
      obj.size.length = 2 ∧
      (∀ x ∈ obj.size, 3/100 ≤ x ∧ x ≤ 7/100) ∧
      obj.density ∈ DEFAULT_DENSITY_RANGE ∧
      (∃ f0 ∈ DEFAULT_FRICTION_RANGE, obj.friction = [f0, 1/200, 1/10000]) ∧
      obj.rgba.get? 3 = some 1) ∧
    (∃ obj, RandomBallObject.init none none none none RgbaArg.random rng =
        Except.ok obj ∧
      (BallObject.get_collision obj none false).tag = "body" ∧
      firstGeomType (BallObject.get_collision obj none false) = some "sphere" ∧
      obj.size.length = 1 ∧
      (∀ x ∈ obj.size, 3/100 ≤ x ∧ x ≤ 7/100) ∧
      obj.density ∈ DEFAULT_DENSITY_RANGE ∧
      (∃ f0 ∈ DEFAULT_FRICTION_RANGE, obj.friction = [f0, 1/200, 1/10000]) ∧
      obj.rgba.get? 3 = some 1) ∧
    RandomCapsuleObject.init none none RgbaArg.random rng =
      Except.error (PyErr.unboundLocalError
        "local variable density_range referenced before assignment") := by
  refine ⟨⟨_, rfl, rfl, rfl, rfl, ?_, ?_, ?_, rfl⟩,
          ⟨_, rfl, rfl, rfl, rfl, ?_, ?_, ?_, rfl⟩,
          ⟨_, rfl, rfl, rfl, rfl, ?_, ?_, ?_, rfl⟩, rfl⟩
  · intro x hx
    simp only [List.nil_append, List.append_assoc, List.singleton_append,
      List.cons_append, List.mem_cons, List.mem_singleton,
      List.not_mem_nil, or_false] at hx
    rcases hx with rfl | rfl | rfl
    · exact npUniform_mem _ _ _ (show (3/100:ℚ) ≤ 7/100 by norm_num) (hu 0).1 (hu 0).2
    · exact npUniform_mem _ _ _ (show (3/100:ℚ) ≤ 7/100 by norm_num) (hu 1).1 (hu 1).2
    · exact npUniform_mem _ _ _ (show (3/100:ℚ) ≤ 7/100 by norm_num) (hu 2).1 (hu 2).2
  · exact List.get_mem _ _ _
  · exact ⟨_, List.get_mem _ _ _, rfl⟩
  · intro x hx
    simp only [List.nil_append, List.append_assoc, List.singleton_append,
      List.cons_append, List.mem_cons, List.mem_singleton,
      List.not_mem_nil, or_false] at hx
    rcases hx with rfl | rfl
    · exact npUniform_mem _ _ _ (show (3/100:ℚ) ≤ 7/100 by norm_num) (hu 0).1 (hu 0).2
    · exact npUniform_mem _ _ _ (show (3/100:ℚ) ≤ 7/100 by norm_num) (hu 1).1 (hu 1).2
  · exact List.get_mem _ _ _
  · exact ⟨_, List.get_mem _ _ _, rfl⟩
  · intro x hx
    simp only [List.nil_append, List.append_assoc, List.singleton_append,
      List.cons_append, List.mem_cons, List.mem_singleton,
      List.not_mem_nil, or_false] at hx
    rcases hx with rfl
    exact npUniform_mem _ _ _ (show (3/100:ℚ) ≤ 7/100 by norm_num) (hu 0).1 (hu 0).2
  · exact List.get_mem _ _ _
  · exact ⟨_, List.get_mem _ _ _, rfl⟩

/-- C2 witness: the concrete draw stream `rng0`. -/
theorem spec_C2_bug_witness :
    (∀ i, 0 ≤ rng0.sizeU i ∧ rng0.sizeU i ≤ 1) ∧
    ((∃ obj, RandomBoxObject.init none none none none RgbaArg.random rng0 =
        Except.ok obj ∧
      (BoxObject.get_collision obj none false).tag = "body" ∧
      firstGeomType (BoxObject.get_collision obj none false) = some "box" ∧
      obj.size.length = 3 ∧
      (∀ x ∈ obj.size, 3/100 ≤ x ∧ x ≤ 7/100) ∧
      obj.density ∈ DEFAULT_DENSITY_RANGE ∧
      (∃ f0 ∈ DEFAULT_FRICTION_RANGE, obj.friction = [f0, 1/200, 1/10000]) ∧
      obj.rgba.get? 3 = some 1) ∧
    (∃ obj, RandomCylinderObject.init none none none none RgbaArg.random rng0 =
        Except.ok obj ∧
      (CylinderObject.get_collision obj none false).tag = "body" ∧
      firstGeomType (CylinderObject.get_collision obj none false) = some "cylinder" ∧
      obj.size.length = 2 ∧
      (∀ x ∈ obj.size, 3/100 ≤ x ∧ x ≤ 7/100) ∧
      obj.density ∈ DEFAULT_DENSITY_RANGE ∧
      (∃ f0 ∈ DEFAULT_FRICTION_RANGE, obj.friction = [f0, 1/200, 1/10000]) ∧
      obj.rgba.get? 3 = some 1) ∧
    (∃ obj, RandomBallObject.init none none none none RgbaArg.random rng0 =
        Except.ok obj ∧
      (BallObject.get_collision obj none false).tag = "body" ∧
      firstGeomType (BallObject.get_collision obj none false) = some "sphere" ∧
      obj.size.length = 1 ∧
      (∀ x ∈ obj.size, 3/100 ≤ x ∧ x ≤ 7/100) ∧
      obj.density ∈ DEFAULT_DENSITY_RANGE ∧
      (∃ f0 ∈ DEFAULT_FRICTION_RANGE, obj.friction = [f0, 1/200, 1/10000]) ∧
      obj.rgba.get? 3 = some 1) ∧
    RandomCapsuleObject.init none none RgbaArg.random rng0 =
      Except.error (PyErr.unboundLocalError
        "local variable density_range referenced before assignment")) :=
  ⟨fun i => ⟨by norm_num [rng0], by norm_num [rng0]⟩,
   spec_C2_bug rng0 (fun i => ⟨by norm_num [rng0], by norm_num [rng0]⟩)⟩

/-- C3: `get_horizontal_radius` returns the Euclidean norm
`sqrt(size[0]^2 + size[1]^2)` for a box (which is at least
`max(size[0], size[1])`) and `size[0]` for cylinder, ball and capsule; and
whenever two generated objects are placed at horizontal centers whose
distance exceeds the sum of their horizontal radii, their horizontal
footprints are disjoint. -/
theorem spec_C3 :
    (∀ s0 s1 s2 : ℝ,
      GenShape.get_horizontal_radius (GenShape.box s0 s1 s2) =
        Real.sqrt (s0 ^ 2 + s1 ^ 2) ∧
      max s0 s1 ≤ GenShape.get_horizontal_radius (GenShape.box s0 s1 s2)) ∧
    (∀ r h : ℝ, GenShape.get_horizontal_radius (GenShape.cylinder r h) = r) ∧
    (∀ r : ℝ, GenShape.get_horizontal_radius (GenShape.ball r) = r) ∧
    (∀ r h : ℝ, GenShape.get_horizontal_radius (GenShape.capsule r h) = r) ∧
    (∀ (a b : GenShape) (ca cb : EuclideanSpace ℝ (Fin 2)),
      GenShape.get_horizontal_radius a + GenShape.get_horizontal_radius b <
          dist ca cb →
        Disjoint (a.footprint ca) (b.footprint cb)) := by
  refine ⟨?_, fun r h => rfl, fun r => rfl, fun r h => rfl, ?_⟩
  · intro s0 s1 s2
    refine ⟨rfl, ?_⟩
    have hb : ∀ x y : ℝ, x ≤ Real.sqrt (x ^ 2 + y ^ 2) := by
      intro x y
      calc x ≤ |x| := le_abs_self x
        _ = Real.sqrt (x ^ 2) := (Real.sqrt_sq_eq_abs x).symm
        _ ≤ Real.sqrt (x ^ 2 + y ^ 2) := Real.sqrt_le_sqrt (by nlinarith [sq_nonneg y])
    refine max_le (hb s0 s1) ?_
    calc s1 ≤ Real.sqrt (s1 ^ 2 + s0 ^ 2) := hb s1 s0
      _ = Real.sqrt (s0 ^ 2 + s1 ^ 2) := by rw [add_comm]
  · intro a b ca cb hlt
    exact Disjoint.mono (footprint_subset_closedBall a ca)
      (footprint_subset_closedBall b cb)
      (Metric.closedBall_disjoint_closedBall hlt)

/-- The origin of the horizontal plane. -/
noncomputable def ptA : EuclideanSpace ℝ (Fin 2) :=
  (WithLp.equiv 2 (Fin 2 → ℝ)).symm ![0, 0]

/-- The point ten units along the first axis. -/
noncomputable def ptB : EuclideanSpace ℝ (Fin 2) :=
  (WithLp.equiv 2 (Fin 2 → ℝ)).symm ![10, 0]

theorem dist_ptA_ptB : dist ptA ptB = 10 := by
  rw [EuclideanSpace.dist_eq, Fin.sum_univ_two]
  unfold ptA ptB
  simp only [WithLp.equiv_symm_pi_apply, Matrix.cons_val_zero, Matrix.cons_val_one,
    Matrix.head_cons, Real.dist_eq]
  norm_num
  rw [show (100:ℝ) = 10 ^ 2 by norm_num, Real.sqrt_sq (by norm_num)]

/-- C3 witness: a 3x4x5 box at the origin and a unit ball ten units away:
the radii sum to 6 < 10, and the footprints are disjoint. -/
theorem spec_C3_witness :
    GenShape.get_horizontal_radius (GenShape.box 3 4 5) +
      GenShape.get_horizontal_radius (GenShape.ball 1) < dist ptA ptB ∧
    Disjoint ((GenShape.box 3 4 5).footprint ptA)
      ((GenShape.ball 1).footprint ptB) := by
  have hb : GenShape.get_horizontal_radius (GenShape.box 3 4 5) = 5 := by
    show Real.sqrt ((3:ℝ) ^ 2 + 4 ^ 2) = 5
    rw [show ((3:ℝ) ^ 2 + 4 ^ 2) = 5 ^ 2 by norm_num, Real.sqrt_sq (by norm_num)]
  have hlt : GenShape.get_horizontal_radius (GenShape.box 3 4 5) +
      GenShape.get_horizontal_radius (GenShape.ball 1) < dist ptA ptB := by
    rw [hb, dist_ptA_ptB]
    show (5:ℝ) + 1 < 10
    norm_num
  exact ⟨hlt, spec_C3.2.2.2.2 (GenShape.box 3 4 5) (GenShape.ball 1) ptA ptB hlt⟩
